import Mathlib

/-!
Verification of the websocket connection core of the `apca` crate
(`src/websocket.rs`): the `MessageResult` outcome adapter, the
`connect_internal`/`connect` connector pair, and the test-only
`mock_stream` harness.  The asynchronous environment (the outcome of the
single `connect_async` handshake, the tracing subscriber, the mock
server) is made explicit: the connector is embedded as a pure function
from the handshake outcome to its returned `Result` together with the
ordered trace of effects (handshake attempt and log emissions) it
performs.
-/

/-- Rust's `Result<T, E>` type, as matched on and produced by the code. -/
inductive RustResult (T E : Type) where
  | Ok : T → RustResult T E
  | Err : E → RustResult T E
deriving DecidableEq, Repr

/-- Rust's `Result::map`: applies `f` to the success payload, keeps errors. -/
def RustResult.map {T U E : Type} (f : T → U) : RustResult T E → RustResult U E
  | .Ok t => .Ok (f t)
  | .Err e => .Err e

/-- Rust's `Result::is_ok`. -/
def RustResult.isOk {T E : Type} : RustResult T E → Bool
  | .Ok _ => true
  | .Err _ => false

/-- The `MessageResult<T, E>` enum of `src/websocket.rs`: a custom
`Result`-style type with exactly the two variants `Ok` and `Err`. -/
inductive MessageResult (T E : Type) where
  | Ok : T → MessageResult T E
  | Err : E → MessageResult T E
deriving DecidableEq, Repr

/-- The `impl<T, E> From<Result<T, E>> for MessageResult<T, E>` conversion:
`Ok(t)` maps to `MessageResult::Ok(t)` and `Err(e)` to `MessageResult::Err(e)`. -/
def MessageResult.fromResult {T E : Type} : RustResult T E → MessageResult T E
  | .Ok t => .Ok t
  | .Err e => .Err e

/-- Modelled from the spec: `crate::Error` (defined at the crate root, not in
`src/websocket.rs`) as far as this core exercises it — a single
connection-category variant wrapping the underlying transport error, which is
what the `?` operator in `connect_internal` applies via `From`.  Per spec §7
the core "is a pass-through": no distinct sub-kinds are introduced. -/
inductive ApcaError (TE : Type) where
  | WebSocket : TE → ApcaError TE
deriving DecidableEq, Repr

/-- The outcome the environment assigns to the one `connect_async(url)` call of
a `connect_internal` invocation: either an established stream together with
the handshake response metadata, or a transport error. -/
inductive ConnectOutcome (St Resp TE : Type) where
  | ok : St → Resp → ConnectOutcome St Resp TE
  | err : TE → ConnectOutcome St Resp TE
deriving DecidableEq, Repr

/-- An observable effect of `connect_internal`, in program order: the
`connect_async` invocation itself, and the three structured log emissions
(`debug!(message = "connecting", ...)`, `debug!("connection successful")`,
`trace!(response = ...)`). -/
inductive Event (Resp : Type) where
  | handshakeAttempt (url : String)
  | debugConnecting (url : String)
  | debugConnectionSuccessful
  | traceResponse (resp : Resp)
deriving DecidableEq, Repr

/-- Whether an event is a log emission (as opposed to the network handshake). -/
def Event.isLog {Resp : Type} : Event Resp → Bool
  | .handshakeAttempt _ => false
  | _ => true

/-- Whether an event is an invocation of `connect_async`. -/
def Event.isHandshake {Resp : Type} : Event Resp → Bool
  | .handshakeAttempt _ => true
  | _ => false

/-- A tracing span, identified by its name (`span!(Level::DEBUG, "stream")`). -/
structure Span where
  name : String
deriving DecidableEq, Repr

/-- The span wrapping the connection attempt in `connect_internal`. -/
def streamSpan : Span := ⟨"stream"⟩

/-- The body of the `async move` block of `connect_internal`, before
instrumentation: log the connection intent, perform the single
`connect_async(url)` call, and on success log the confirmation and the
response metadata; on failure the `?` operator returns the wrapped error.
Returns the `Result` together with the ordered effect trace. -/
def connect_body {St Resp TE : Type} (outcome : ConnectOutcome St Resp TE)
    (url : String) : RustResult St (ApcaError TE) × List (Event Resp) :=
  match outcome with
  | .ok stream response =>
      (.Ok stream,
        [.debugConnecting url, .handshakeAttempt url,
         .debugConnectionSuccessful, .traceResponse response])
  | .err e =>
      (.Err (.WebSocket e), [.debugConnecting url, .handshakeAttempt url])

/-- The `.instrument(span)` combinator: every event of the computation is
attributed to the given span; the computed value is untouched. -/
def instrument {α Resp : Type} (sp : Span) (comp : α × List (Event Resp)) :
    α × List (Span × Event Resp) :=
  (comp.1, comp.2.map (fun ev => (sp, ev)))

/-- The `connect_internal` function of `src/websocket.rs`: the async body
instrumented with the `"stream"` span. -/
def connect_internal {St Resp TE : Type} (outcome : ConnectOutcome St Resp TE)
    (url : String) : RustResult St (ApcaError TE) × List (Span × Event Resp) :=
  instrument streamSpan (connect_body outcome url)

/-- Modelled from the spec: the builder of the external `websocket_util`
`Wrapper` framing adapter, with default framing configuration (spec §4.1:
"the resulting stream is handed to a builder that constructs the Wrapper
with default framing configuration; this step is assumed infallible"). -/
structure WrapperBuilder where

/-- Modelled from the spec: the external `Wrapper` framing adapter, owning
the transport stream it was built from. -/
structure Wrapper (St : Type) where
  stream : St
deriving DecidableEq, Repr

/-- The `Wrapper::builder()` constructor. -/
def Wrapper.builder : WrapperBuilder := {}

/-- The builder's `build(stream)` call: infallibly wraps the stream. -/
def WrapperBuilder.build {St : Type} (_b : WrapperBuilder) (s : St) :
    Wrapper St := ⟨s⟩

/-- The public `connect` function of `src/websocket.rs`:
`connect_internal(url).await.map(|stream| Wrapper::builder().build(stream))`. -/
def connect {St Resp TE : Type} (outcome : ConnectOutcome St Resp TE)
    (url : String) :
    RustResult (Wrapper St) (ApcaError TE) × List (Span × Event Resp) :=
  let r := connect_internal outcome url
  (r.1.map (fun stream => Wrapper.builder.build stream), r.2)

/-- The decimal digit character for `d < 10` (offset from `'0'`, code 48). -/
def digitChar (d : Nat) : Char := Char.ofNat (48 + d)

/-- Big-endian decimal digit characters of `n`, empty for `n = 0`; the first
argument is structural fuel (any fuel `≥ n` is exact). -/
def natCharsGo : Nat → Nat → List Char
  | 0, _ => []
  | _ + 1, 0 => []
  | fuel + 1, n + 1 => natCharsGo fuel ((n + 1) / 10) ++ [digitChar ((n + 1) % 10)]

/-- Rust's `Display` rendering of an unsigned integer: the usual decimal
digit string, `"0"` for zero. -/
def natChars (n : Nat) : List Char :=
  if n = 0 then ['0'] else natCharsGo n n

/-- The numeric value of a decimal digit character. -/
def charVal (c : Char) : Nat := c.toNat - 48

/-- Big-endian decimal parsing of a digit-character list. -/
def decToNat (l : List Char) : Nat := l.foldl (fun acc c => 10 * acc + charVal c) 0

/-- A character terminating the authority component of a URL. -/
def authorityEnd (c : Char) : Bool := c = '/' || c = '?' || c = '#'

/-- A character permitted in a URL host (the complement of the forbidden host
code points of the URL standard). -/
def validHostChar (c : Char) : Bool :=
  !(c = ' ' || c = '#' || c = '/' || c = ':' || c = '<' || c = '>' || c = '?' ||
    c = '@' || c = '[' || c = ']' || c = '^' || c = '|' || c = '\\')

/-- A parsed URL as the `url` crate exposes it, restricted to the components
this core uses: scheme, host and optional port. -/
structure ParsedUrl where
  scheme : String
  host : String
  port : Option Nat
deriving DecidableEq, Repr

/-- Splits a URL authority into host and optional port at the last `':'`;
fails when the port component is malformed or out of the 16-bit range. -/
def parseAuthority (auth : List Char) : Option (List Char × Option Nat) :=
  if ':' ∈ auth then
    let rev := auth.reverse
    let portRev := rev.takeWhile (fun c => c != ':')
    let host := ((rev.dropWhile (fun c => c != ':')).tail).reverse
    if portRev = [] then some (host, none)
    else if portRev.all Char.isDigit ∧ decToNat portRev.reverse < 65536 then
      some (host, some (decToNat portRev.reverse))
    else none
  else some (auth, none)

/-- Modelled from the spec: the fragment of the external `url` crate's
`Url::parse` exercised by the harness — absolute `ws://` URLs (the spec's
scenario endpoint is `ws://127.0.0.1:<ephemeral>`).  The authority extends to
the first `'/'`, `'?'` or `'#'`; the host must be nonempty and free of
forbidden host code points; a port, when present, must be decimal digits
below 2^16. -/
def urlParseChars : List Char → Option ParsedUrl
  | 'w' :: 's' :: ':' :: '/' :: '/' :: rest =>
      (parseAuthority (rest.takeWhile (fun c => !(authorityEnd c)))).bind
        (fun hp =>
          if hp.1 ≠ [] ∧ hp.1.all validHostChar then
            some ⟨"ws", String.mk hp.1, hp.2⟩
          else none)
  | _ => none

/-- `Url::parse` on a string. -/
def urlParse (s : String) : Option ParsedUrl := urlParseChars s.data

/-- Modelled from the spec: the IPv4 socket address the external mock server
reports (spec §8 scenario: `ws://127.0.0.1:<ephemeral>`), with `u8` octets
and a `u16` port. -/
structure SocketAddrV4 where
  a : Nat
  b : Nat
  c : Nat
  d : Nat
  port : Nat
deriving DecidableEq, Repr

/-- The fields of a socket address are in the `u8`/`u16` ranges. -/
def SocketAddrV4.valid (x : SocketAddrV4) : Prop :=
  x.a < 256 ∧ x.b < 256 ∧ x.c < 256 ∧ x.d < 256 ∧ x.port < 65536

instance (x : SocketAddrV4) : Decidable x.valid := by
  unfold SocketAddrV4.valid; infer_instance

/-- The character rendering of the IPv4 host part, `a.b.c.d`. -/
def ipv4Chars (x : SocketAddrV4) : List Char :=
  natChars x.a ++ '.' :: natChars x.b ++ '.' :: natChars x.c ++ '.' :: natChars x.d

/-- The character rendering of the whole address, `a.b.c.d:port`. -/
def SocketAddrV4.render (x : SocketAddrV4) : List Char :=
  ipv4Chars x ++ ':' :: natChars x.port

/-- Rust's `SocketAddr::to_string` for an IPv4 address. -/
def SocketAddrV4.toString (x : SocketAddrV4) : String := String.mk x.render

/-- The fake key-id constant `KEY_ID` of the test module. -/
def KEY_ID : String := "USER12345678"

/-- The fake secret constant `SECRET` of the test module. -/
def SECRET : String := "justletmein"

/-- Modelled from the spec: `crate::ApiInfo` (defined outside
`src/websocket.rs`), as constructed by the harness — a base URL plus the two
credential strings. -/
structure ApiInfo where
  base_url : ParsedUrl
  key_id : String
  secret : String
deriving DecidableEq, Repr

/-- The `mock_stream::<S>(f)` harness of `src/websocket.rs`, with the external
collaborators explicit: `mock_server` is the mock-server spawner (script to
bound local address), `S_connect` is the generic client's
`S::connect` entrypoint.  The `Url::parse(...).unwrap()` is modelled by
`none` on the parse-failure (panic) branch. -/
def mock_stream {Script Stream Sub EC : Type}
    (mock_server : Script → SocketAddrV4)
    (S_connect : ApiInfo → RustResult (Stream × Sub) EC)
    (f : Script) : Option (RustResult (Stream × Sub) EC) :=
  let addr := mock_server f
  match urlParse ("ws://" ++ addr.toString) with
  | none => none
  | some u =>
      let api_info : ApiInfo :=
        { base_url := u, key_id := KEY_ID, secret := SECRET }
      some (S_connect api_info)

/-- Digit characters have the expected host-character properties. -/
lemma digitChar_props {d : Nat} (hd : d < 10) :
    (digitChar d).isDigit = true ∧ (digitChar d != ':') = true ∧
    validHostChar (digitChar d) = true ∧ authorityEnd (digitChar d) = false := by
  interval_cases d <;> decide

/-- The numeric value of a digit character recovers the digit. -/
lemma charVal_digitChar {d : Nat} (hd : d < 10) : charVal (digitChar d) = d := by
  interval_cases d <;> rfl

/-- Every character produced by `natCharsGo` is a decimal digit character. -/
lemma mem_natCharsGo {c : Char} :
    ∀ fuel n : Nat, c ∈ natCharsGo fuel n → ∃ d, d < 10 ∧ c = digitChar d := by
  intro fuel
  induction fuel with
  | zero => intro n h; simp [natCharsGo] at h
  | succ fuel ih =>
      intro n h
      match n with
      | 0 => simp [natCharsGo] at h
      | n + 1 =>
          rw [natCharsGo, List.mem_append] at h
          rcases h with h | h
          · exact ih _ h
          · refine ⟨(n + 1) % 10, Nat.mod_lt _ (by omega), ?_⟩
            simpa using h

/-- Every character produced by `natChars` is a decimal digit character. -/
lemma mem_natChars {c : Char} {n : Nat} (h : c ∈ natChars n) :
    ∃ d, d < 10 ∧ c = digitChar d := by
  unfold natChars at h
  split at h
  · exact ⟨0, by omega, by simpa [digitChar] using h⟩
  · exact mem_natCharsGo _ _ h

/-- A nonzero number renders to at least one character. -/
lemma natChars_ne_nil (n : Nat) : natChars n ≠ [] := by
  unfold natChars
  split
  · simp
  · match n, ‹n ≠ 0› with
    | n + 1, _ => rw [natCharsGo]; simp

/-- Parsing back the decimal rendering recovers the number. -/
lemma decToNat_natCharsGo : ∀ fuel n : Nat, n ≤ fuel → decToNat (natCharsGo fuel n) = n := by
  intro fuel
  induction fuel with
  | zero => intro n hn; interval_cases n; rfl
  | succ fuel ih =>
      intro n hn
      match n with
      | 0 => rfl
      | n + 1 =>
          rw [natCharsGo]
          have hdiv : (n + 1) / 10 ≤ fuel := by omega
          have step : decToNat (natCharsGo fuel ((n + 1) / 10) ++ [digitChar ((n + 1) % 10)]) =
              10 * decToNat (natCharsGo fuel ((n + 1) / 10)) + charVal (digitChar ((n + 1) % 10)) := by
            unfold decToNat
            rw [List.foldl_append]
            rfl
          rw [step, ih _ hdiv, charVal_digitChar (Nat.mod_lt _ (by omega))]
          omega

/-- Parsing back the full decimal rendering recovers the number. -/
lemma decToNat_natChars (n : Nat) : decToNat (natChars n) = n := by
  unfold natChars
  split
  · subst ‹n = 0›; rfl
  · exact decToNat_natCharsGo n n (Nat.le_refl n)

/-- `takeWhile` runs through a block of satisfying elements and stops at the
first failing one. -/
lemma takeWhile_middle {α : Type} (p : α → Bool) (a : α) (ha : p a = false) :
    ∀ (l₁ l₂ : List α), (∀ c ∈ l₁, p c = true) → (l₁ ++ a :: l₂).takeWhile p = l₁ := by
  intro l₁
  induction l₁ with
  | nil => intro l₂ _; simp [List.takeWhile_cons, ha]
  | cons b l₁ ih =>
      intro l₂ h
      have hb : p b = true := h b (List.mem_cons_self b l₁)
      simp only [List.cons_append, List.takeWhile_cons, hb, if_true]
      rw [ih l₂ (fun c hc => h c (List.mem_cons_of_mem b hc))]

/-- `dropWhile` drops a block of satisfying elements and stops at the first
failing one. -/
lemma dropWhile_middle {α : Type} (p : α → Bool) (a : α) (ha : p a = false) :
    ∀ (l₁ l₂ : List α), (∀ c ∈ l₁, p c = true) → (l₁ ++ a :: l₂).dropWhile p = a :: l₂ := by
  intro l₁
  induction l₁ with
  | nil => intro l₂ _; simp [List.dropWhile_cons, ha]
  | cons b l₁ ih =>
      intro l₂ h
      have hb : p b = true := h b (List.mem_cons_self b l₁)
      simp only [List.cons_append, List.dropWhile_cons, hb, if_true]
      exact ih l₂ (fun c hc => h c (List.mem_cons_of_mem b hc))

/-- `takeWhile` keeps a list all of whose elements satisfy the predicate. -/
lemma takeWhile_all {α : Type} (p : α → Bool) :
    ∀ l : List α, (∀ c ∈ l, p c = true) → l.takeWhile p = l := by
  intro l
  induction l with
  | nil => intro _; rfl
  | cons b l ih =>
      intro h
      have hb : p b = true := h b (List.mem_cons_self b l)
      simp only [List.takeWhile_cons, hb, if_true]
      rw [ih (fun c hc => h c (List.mem_cons_of_mem b hc))]

/-- Splitting an authority of the form `host:digits` at the colon recovers
the host and the numeric port. -/
lemma parseAuthority_hostport (H P : List Char)
    (_hH : ∀ c ∈ H, (c != ':') = true)
    (hPd : ∀ c ∈ P, c.isDigit = true)
    (hPc : ∀ c ∈ P, (c != ':') = true)
    (hPne : P ≠ []) (hval : decToNat P < 65536) :
    parseAuthority (H ++ ':' :: P) = some (H, some (decToNat P)) := by
  have hmem : ':' ∈ H ++ ':' :: P :=
    List.mem_append_right _ (List.mem_cons_self ':' P)
  have hrev : (H ++ ':' :: P).reverse = P.reverse ++ ':' :: H.reverse := by
    rw [List.reverse_append, List.reverse_cons, List.append_assoc]
    rfl
  have htake : (P.reverse ++ ':' :: H.reverse).takeWhile (fun c => c != ':') = P.reverse :=
    takeWhile_middle _ ':' (by decide) _ _ (fun c hc => hPc c (List.mem_reverse.mp hc))
  have hdrop : (P.reverse ++ ':' :: H.reverse).dropWhile (fun c => c != ':') = ':' :: H.reverse :=
    dropWhile_middle _ ':' (by decide) _ _ (fun c hc => hPc c (List.mem_reverse.mp hc))
  have hPrne : P.reverse ≠ [] := by
    intro h
    exact hPne (by simpa using congrArg List.reverse h)
  have hall : P.reverse.all Char.isDigit = true :=
    List.all_eq_true.mpr (fun c hc => hPd c (List.mem_reverse.mp hc))
  simp only [parseAuthority, if_pos hmem, hrev, htake, hdrop, List.tail_cons,
    List.reverse_reverse]
  rw [if_neg hPrne, if_pos ⟨hall, hval⟩]

/-- Parsing `ws://` followed by a well-formed `host:port` authority made of
valid host characters and decimal digits succeeds. -/
lemma urlParseChars_hostport (H P : List Char)
    (hHp : ∀ c ∈ H, validHostChar c = true ∧ authorityEnd c = false ∧ (c != ':') = true)
    (hHne : H ≠ [])
    (hPp : ∀ c ∈ P, c.isDigit = true ∧ (c != ':') = true ∧ authorityEnd c = false)
    (hPne : P ≠ []) (hval : decToNat P < 65536) :
    urlParseChars ('w' :: 's' :: ':' :: '/' :: '/' :: (H ++ ':' :: P)) =
      some ⟨"ws", String.mk H, some (decToNat P)⟩ := by
  have htake : (H ++ ':' :: P).takeWhile (fun c => !(authorityEnd c)) = H ++ ':' :: P := by
    apply takeWhile_all
    intro c hc
    rcases List.mem_append.mp hc with hc | hc
    · simp [(hHp c hc).2.1]
    · rcases List.mem_cons.mp hc with rfl | hc
      · decide
      · simp [(hPp c hc).2.2]
  simp only [urlParseChars, htake,
    parseAuthority_hostport H P (fun c hc => (hHp c hc).2.2)
      (fun c hc => (hPp c hc).1) (fun c hc => (hPp c hc).2.1) hPne hval,
    Option.some_bind]
  rw [if_pos ⟨hHne, List.all_eq_true.mpr (fun c hc => (hHp c hc).1)⟩]

/-- Every character of the IPv4 host rendering is a dot or a digit. -/
lemma mem_ipv4Chars {x : SocketAddrV4} {c : Char} (h : c ∈ ipv4Chars x) :
    c = '.' ∨ ∃ d, d < 10 ∧ c = digitChar d := by
  have h5 : c ∈ natChars x.a ∨ c = '.' ∨ c ∈ natChars x.b ∨ c ∈ natChars x.c ∨
      c ∈ natChars x.d := by
    simp only [ipv4Chars, List.mem_append, List.mem_cons] at h
    tauto
  rcases h5 with h | h | h | h | h
  · exact Or.inr (mem_natChars h)
  · exact Or.inl h
  · exact Or.inr (mem_natChars h)
  · exact Or.inr (mem_natChars h)
  · exact Or.inr (mem_natChars h)

/-- The IPv4 host rendering consists of valid, non-terminating host
characters. -/
lemma ipv4Chars_props {x : SocketAddrV4} {c : Char} (h : c ∈ ipv4Chars x) :
    validHostChar c = true ∧ authorityEnd c = false ∧ (c != ':') = true := by
  rcases mem_ipv4Chars h with rfl | ⟨d, hd, rfl⟩
  · decide
  · exact ⟨(digitChar_props hd).2.2.1, (digitChar_props hd).2.2.2,
      (digitChar_props hd).2.1⟩

/-- The IPv4 host rendering is nonempty. -/
lemma ipv4Chars_ne_nil (x : SocketAddrV4) : ipv4Chars x ≠ [] := by
  unfold ipv4Chars
  simp [List.append_eq_nil]

/-- The port rendering consists of digits that do not terminate an authority. -/
lemma natChars_props {n : Nat} {c : Char} (h : c ∈ natChars n) :
    c.isDigit = true ∧ (c != ':') = true ∧ authorityEnd c = false := by
  obtain ⟨d, hd, rfl⟩ := mem_natChars h
  exact ⟨(digitChar_props hd).1, (digitChar_props hd).2.1, (digitChar_props hd).2.2.2⟩

/-- Parsing the harness URL `ws://a.b.c.d:port` succeeds, with scheme `ws`,
the rendered IPv4 host, and the numeric port. -/
lemma urlParse_render (x : SocketAddrV4) (hport : x.port < 65536) :
    urlParse ("ws://" ++ x.toString) =
      some ⟨"ws", String.mk (ipv4Chars x), some x.port⟩ := by
  have hdata : ("ws://" ++ x.toString).data =
      'w' :: 's' :: ':' :: '/' :: '/' :: (ipv4Chars x ++ ':' :: natChars x.port) := rfl
  unfold urlParse
  rw [hdata]
  rw [urlParseChars_hostport (ipv4Chars x) (natChars x.port)
    (fun c hc => ipv4Chars_props hc) (ipv4Chars_ne_nil x)
    (fun c hc => natChars_props hc) (natChars_ne_nil x.port)
    (by rw [decToNat_natChars]; exact hport)]
  rw [decToNat_natChars]

/-- The harness URL parse succeeds for the mock server's address, so
`mock_stream` reaches `S::connect` with a fully determined configuration. -/
lemma mock_stream_eq {Script Stream Sub EC : Type}
    (mock_server : Script → SocketAddrV4)
    (S_connect : ApiInfo → RustResult (Stream × Sub) EC)
    (f : Script) (hport : (mock_server f).port < 65536) :
    mock_stream mock_server S_connect f =
      some (S_connect
        { base_url := ⟨"ws", String.mk (ipv4Chars (mock_server f)),
            some (mock_server f).port⟩,
          key_id := KEY_ID, secret := SECRET }) := by
  simp only [mock_stream]
  rw [urlParse_render (mock_server f) hport]

/-- Claim C1: the `From<Result<T, E>>` conversion sends `Ok(t)` to
`MessageResult::Ok(t)` and `Err(e)` to `MessageResult::Err(e)`, is total, and
no third output state is reachable. -/
theorem c1_outcome_adapter_totality {T E : Type} (t : T) (e : E) (r : RustResult T E) :
    MessageResult.fromResult (RustResult.Ok t : RustResult T E) = MessageResult.Ok t ∧
    MessageResult.fromResult (RustResult.Err e : RustResult T E) = MessageResult.Err e ∧
    ((∃ t0, MessageResult.fromResult r = MessageResult.Ok t0) ∨
      (∃ e0, MessageResult.fromResult r = MessageResult.Err e0)) := by
  refine ⟨rfl, rfl, ?_⟩
  cases r with
  | Ok t0 => exact Or.inl ⟨t0, rfl⟩
  | Err e0 => exact Or.inr ⟨e0, rfl⟩

/-- Claim C2: when the handshake fails with transport error `e`, both
`connect_internal` and `connect` return exactly that error wrapped as the
connection-category error, and no wrapper or stream is produced. -/
theorem c2_failure_propagation {St Resp TE : Type} (e : TE) (url : String) :
    (connect_internal (ConnectOutcome.err e : ConnectOutcome St Resp TE) url).1 =
      RustResult.Err (ApcaError.WebSocket e) ∧
    (connect (ConnectOutcome.err e : ConnectOutcome St Resp TE) url).1 =
      RustResult.Err (ApcaError.WebSocket e) ∧
    ((connect (ConnectOutcome.err e : ConnectOutcome St Resp TE) url).1).isOk = false :=
  ⟨rfl, rfl, rfl⟩

/-- Claim C3: `mock_stream` builds the configuration from the parse of
`ws://<mock-server-address>` and the two fixed credential constants, and
invokes `S::connect` with exactly that configuration. -/
theorem c3_mock_config {Script Stream Sub EC : Type}
    (mock_server : Script → SocketAddrV4)
    (S_connect : ApiInfo → RustResult (Stream × Sub) EC)
    (f : Script) (hv : (mock_server f).valid) :
    mock_stream mock_server S_connect f =
      some (S_connect
        { base_url := ⟨"ws", String.mk (ipv4Chars (mock_server f)),
            some (mock_server f).port⟩,
          key_id := "USER12345678", secret := "justletmein" }) ∧
    some (⟨"ws", String.mk (ipv4Chars (mock_server f)),
        some (mock_server f).port⟩ : ParsedUrl) =
      urlParse ("ws://" ++ (mock_server f).toString) := by
  obtain ⟨_, _, _, _, hp⟩ := hv
  refine ⟨?_, (urlParse_render _ hp).symm⟩
  rw [mock_stream_eq mock_server S_connect f hp]
  rfl

/-- A concrete mock-server address, `127.0.0.1:8080`, for witnesses. -/
def wMockServer : Unit → SocketAddrV4 := fun _ => ⟨127, 0, 0, 1, 8080⟩

/-- A concrete client `connect` entrypoint for witnesses. -/
def wSConnect : ApiInfo → RustResult (Unit × Unit) Unit := fun _ => RustResult.Ok ((), ())

/-- Witness for C3 at the concrete address `127.0.0.1:8080`. -/
theorem c3_witness :
    mock_stream wMockServer wSConnect () =
      some (wSConnect
        { base_url := ⟨"ws", String.mk (ipv4Chars (wMockServer ())),
            some ((wMockServer ()).port)⟩,
          key_id := "USER12345678", secret := "justletmein" }) ∧
    some (⟨"ws", String.mk (ipv4Chars (wMockServer ())),
        some ((wMockServer ()).port)⟩ : ParsedUrl) =
      urlParse ("ws://" ++ (wMockServer ()).toString) :=
  c3_mock_config wMockServer wSConnect () (by decide)

/-- Claim C4: the value `mock_stream` returns is exactly the value the
client's `S::connect` entrypoint returns — success pairs and errors alike are
passed through unchanged. -/
theorem c4_result_passthrough {Script Stream Sub EC : Type}
    (mock_server : Script → SocketAddrV4) (f : Script)
    (hv : (mock_server f).valid) (r : RustResult (Stream × Sub) EC) :
    mock_stream mock_server (fun _ => r) f = some r := by
  obtain ⟨_, _, _, _, hp⟩ := hv
  rw [mock_stream_eq mock_server (fun _ => r) f hp]

/-- Witness for C4: a handshake failure raised by `S::connect` is returned,
not swallowed. -/
theorem c4_witness :
    mock_stream wMockServer
      (fun _ => (RustResult.Err () : RustResult (Unit × Unit) Unit)) () =
      some (RustResult.Err ()) :=
  c4_result_passthrough wMockServer () (by decide) (RustResult.Err ())

/-- Claim C5: on a successful handshake yielding stream `s`, `connect`
returns `Wrapper::builder().build(s)`, and `connect` succeeds exactly when
`connect_internal` succeeds. -/
theorem c5_success_builds_wrapper {St Resp TE : Type} (s : St) (r : Resp)
    (url : String) (o : ConnectOutcome St Resp TE) :
    (connect (ConnectOutcome.ok s r : ConnectOutcome St Resp TE) url).1 =
      RustResult.Ok (Wrapper.builder.build s) ∧
    ((connect o url).1).isOk = ((connect_internal o url).1).isOk := by
  refine ⟨rfl, ?_⟩
  cases o <;> rfl

/-- Claim C6: one call to the connector performs exactly one `connect_async`
invocation, on the success and on the failure path alike. -/
theorem c6_single_handshake {St Resp TE : Type} (o : ConnectOutcome St Resp TE)
    (url : String) :
    ((connect_internal o url).2.countP (fun ev => ev.2.isHandshake)) = 1 ∧
    ((connect o url).2.countP (fun ev => ev.2.isHandshake)) = 1 := by
  cases o <;> exact ⟨rfl, rfl⟩

/-- Counterexample to claim C7 as stated: a failing `connect_internal` call
still emits a log event — the connection-intent `debug!` fires before the
handshake, so the failing call's log trace is nonempty. -/
theorem c7_counterexample :
    ((connect_internal (ConnectOutcome.err () : ConnectOutcome Unit Unit Unit)
        "ws://127.0.0.1:1").2.filter (fun ev => ev.2.isLog)) ≠ [] := by
  decide

/-- Claim C7 as amended: the connection-intent event is emitted
unconditionally before the handshake (so it appears on failing calls too),
while the success confirmation and the handshake-response trace event are
emitted only on the success path; no failure-specific log event exists. -/
theorem c7_success_only_logs {St Resp TE : Type} (e : TE) (s : St) (r : Resp)
    (url : String) :
    ((connect_internal (ConnectOutcome.err e : ConnectOutcome St Resp TE) url).2.filter
        (fun ev => ev.2.isLog)) = [(streamSpan, Event.debugConnecting url)] ∧
    ((connect_internal (ConnectOutcome.ok s r : ConnectOutcome St Resp TE) url).2.filter
        (fun ev => ev.2.isLog)) =
      [(streamSpan, Event.debugConnecting url),
       (streamSpan, Event.debugConnectionSuccessful),
       (streamSpan, Event.traceResponse r)] :=
  ⟨rfl, rfl⟩

/-- Claim C8: instrumenting the connection attempt with the `"stream"` span
leaves the returned `Result` untouched; only the span attribution of the
emitted events changes. -/
theorem c8_instrumentation_no_effect {St Resp TE : Type}
    (o : ConnectOutcome St Resp TE) (url : String) :
    (connect_internal o url).1 = (connect_body o url).1 ∧
    (connect_internal o url).2 = (connect_body o url).2.map (fun ev => (streamSpan, ev)) :=
  ⟨rfl, rfl⟩

/-- Claim C9: the connector's returned value does not depend on the handshake
response metadata — two successful handshakes yielding the same stream but
different responses produce the same result. -/
theorem c9_response_noninterference {St Resp TE : Type} (s : St) (r1 r2 : Resp)
    (url : String) :
    (connect (ConnectOutcome.ok s r1 : ConnectOutcome St Resp TE) url).1 =
      (connect (ConnectOutcome.ok s r2) url).1 ∧
    (connect_internal (ConnectOutcome.ok s r1 : ConnectOutcome St Resp TE) url).1 =
      (connect_internal (ConnectOutcome.ok s r2) url).1 :=
  ⟨rfl, rfl⟩

/-- Claim C10: parsing `ws://` followed by the rendered mock-server address
always succeeds, so the `.unwrap()` in `mock_stream` never panics. -/
theorem c10_unwrap_never_panics {Script Stream Sub EC : Type}
    (mock_server : Script → SocketAddrV4)
    (S_connect : ApiInfo → RustResult (Stream × Sub) EC)
    (f : Script) (hv : (mock_server f).valid) :
    (∃ u, urlParse ("ws://" ++ (mock_server f).toString) = some u) ∧
    mock_stream mock_server S_connect f ≠ none := by
  obtain ⟨_, _, _, _, hp⟩ := hv
  refine ⟨⟨_, urlParse_render _ hp⟩, ?_⟩
  rw [mock_stream_eq mock_server S_connect f hp]
  simp

/-- Witness for C10 at the concrete address `127.0.0.1:8080`. -/
theorem c10_witness :
    (∃ u, urlParse ("ws://" ++ (wMockServer ()).toString) = some u) ∧
    mock_stream wMockServer wSConnect () ≠ none :=
  c10_unwrap_never_panics wMockServer wSConnect () (by decide)
